import Mathlib

/-!
Verification of the `RobotControl.h` header of the MobileLighting repository
(file `MobileLighting_Mac/RobotControl/RobotControl/RobotControl.h`).

The source is a declarations-only C header.  We embed it faithfully, line by
line, as a list of `HeaderLine` values: each comment line, blank line,
preprocessor directive, and function prototype of the source appears as one
element, in source order.  A small, executable semantics for the include guard
(a line-based C preprocessor restricted to the directives the file uses) and
for the GCC visibility pragma stack lets us state and prove the claims about
idempotent inclusion and balanced visibility push/pop.
-/

/-- C types as they occur in (or could occur in) a declarations-only header:
the primitive types `int`, `float`, `char`, pointer types, and named
aggregate/typedef references (`struct s`, `union u`, `enum e`, or a typedef
name), the latter so that their absence from the file is a provable fact and
not an artifact of the embedding. -/
inductive CType : Type
  | int : CType
  | float : CType
  | char : CType
  | ptr : CType → CType
  | named : String → String → CType
deriving DecidableEq

/-- A C function declarator's parameter list.  C distinguishes the empty list
`()` (parameters left unspecified) from `(void)` (zero parameters); we keep
that distinction: `unspecified` embeds `()`, and `params ts` embeds an
explicit list, with `params []` embedding `(void)`. -/
inductive ParamList : Type
  | unspecified : ParamList
  | params : List CType → ParamList
deriving DecidableEq

/-- A function prototype: name, return type, parameter list. -/
structure FunDecl : Type where
  name : String
  ret : CType
  args : ParamList
deriving DecidableEq

/-- The preprocessor directives and pragmas occurring in the header. -/
inductive PPDirective : Type
  | ifNotDefined : String → PPDirective
  | define : String → PPDirective
  | endif : PPDirective
  | pragmaVisibilityPush : String → PPDirective
  | pragmaVisibilityPop : PPDirective
deriving DecidableEq

/-- One line of a header file.  Besides the kinds of line that actually occur
in `RobotControl.h` (comments, blanks, directives, prototypes) we include
constructors for the kinds of content the spec asserts to be absent —
function definitions with bodies, variable declarations, type definitions,
executable statements — so that their absence is a provable property. -/
inductive HeaderLine : Type
  | comment : String → HeaderLine
  | blank : HeaderLine
  | directive : PPDirective → HeaderLine
  | decl : FunDecl → HeaderLine
  | funBody : FunDecl → HeaderLine
  | varDecl : String → CType → HeaderLine
  | typeDefn : String → CType → HeaderLine
  | stmt : HeaderLine
deriving DecidableEq

/-- `int Clinet();` (line 15 of the source). -/
def clinetDecl : FunDecl := ⟨ "Clinet", CType.int, ParamList.unspecified⟩

/-- `int SendCommand(char *);` (line 16 of the source). -/
def sendCommandDecl : FunDecl :=
  ⟨ "SendCommand", CType.int, ParamList.params [CType.ptr CType.char]⟩

/-- `int GotoView(char *);` (line 17 of the source). -/
def gotoViewDecl : FunDecl :=
  ⟨ "GotoView", CType.int, ParamList.params [CType.ptr CType.char]⟩

/-- `int LoadPath(char *);` (line 18 of the source). -/
def loadPathDecl : FunDecl :=
  ⟨ "LoadPath", CType.int, ParamList.params [CType.ptr CType.char]⟩

/-- `int ExecutePath();` (line 19 of the source). -/
def executePathDecl : FunDecl := ⟨ "ExecutePath", CType.int, ParamList.unspecified⟩

/-- `int SetVelocity(float);` (line 20 of the source). -/
def setVelocityDecl : FunDecl :=
  ⟨ "SetVelocity", CType.int, ParamList.params [CType.float]⟩

/-- The file `RobotControl.h`, transcribed line by line (lines 1-23 of the
source, in order). -/
def RobotControl_h : List HeaderLine :=
  [ HeaderLine.comment "",
    HeaderLine.comment " RobotControl.h",
    HeaderLine.comment " RobotControl",
    HeaderLine.comment " Guanghan Pan",
    HeaderLine.comment "",
    HeaderLine.comment " Header file to export functions",
    HeaderLine.comment "",
    HeaderLine.blank,
    HeaderLine.blank,
    HeaderLine.directive (PPDirective.ifNotDefined "RobotControl_"),
    HeaderLine.directive (PPDirective.define "RobotControl_"),
    HeaderLine.blank,
    HeaderLine.directive (PPDirective.pragmaVisibilityPush "default"),
    HeaderLine.blank,
    HeaderLine.decl clinetDecl,
    HeaderLine.decl sendCommandDecl,
    HeaderLine.decl gotoViewDecl,
    HeaderLine.decl loadPathDecl,
    HeaderLine.decl executePathDecl,
    HeaderLine.decl setVelocityDecl,
    HeaderLine.blank,
    HeaderLine.directive PPDirective.pragmaVisibilityPop,
    HeaderLine.directive PPDirective.endif ]

/-- The function prototypes declared by a list of header lines, in order. -/
def headerDecls (lines : List HeaderLine) : List FunDecl :=
  lines.filterMap fun l =>
    match l with
    | HeaderLine.decl d => some d
    | _ => none

/-- The comment text of every comment line, in order. -/
def headerComments (lines : List HeaderLine) : List String :=
  lines.filterMap fun l =>
    match l with
    | HeaderLine.comment s => some s
    | _ => none

/-- A header line is purely declarative when it is a comment, a blank line, a
directive, or a function prototype — i.e. it is not a function definition with
a body, not a variable declaration, not a type definition, and not an
executable statement. -/
def isDeclarativeLine : HeaderLine → Bool
  | HeaderLine.comment _ => true
  | HeaderLine.blank => true
  | HeaderLine.directive _ => true
  | HeaderLine.decl _ => true
  | HeaderLine.funBody _ => false
  | HeaderLine.varDecl _ _ => false
  | HeaderLine.typeDefn _ _ => false
  | HeaderLine.stmt => false

/-- A type is built from primitives when it is `int`, `float`, `char`, or a
pointer to such a type — in particular it mentions no struct, union, enum, or
typedef name. -/
def isPrimitiveType : CType → Bool
  | CType.int => true
  | CType.float => true
  | CType.char => true
  | CType.ptr t => isPrimitiveType t
  | CType.named _ _ => false

/-- The parameter types explicitly listed by a parameter list (`()` lists
none). -/
def paramTypes : ParamList → List CType
  | ParamList.unspecified => []
  | ParamList.params ts => ts

/-- True when a header line is a `#pragma GCC visibility push(...)`. -/
def isVisPush : HeaderLine → Bool
  | HeaderLine.directive (PPDirective.pragmaVisibilityPush _) => true
  | _ => false

/-- True when a header line is a `#pragma GCC visibility pop`. -/
def isVisPop : HeaderLine → Bool
  | HeaderLine.directive PPDirective.pragmaVisibilityPop => true
  | _ => false

/-- Effect of one header line on the GCC visibility stack: `push(v)` pushes
`v`, `pop` pops, every other line leaves the stack unchanged. -/
def visStep (s : List String) : HeaderLine → List String
  | HeaderLine.directive (PPDirective.pragmaVisibilityPush v) => v :: s
  | HeaderLine.directive PPDirective.pragmaVisibilityPop => s.tail
  | _ => s

/-- The visibility stack after processing a list of header lines, starting
from stack `s`. -/
def visAfter (lines : List HeaderLine) (s : List String) : List String :=
  lines.foldl visStep s

/-- Each declared prototype of a list of header lines, paired with the
visibility stack in force at its line, starting from stack `s`. -/
def declsWithVis (s : List String) : List HeaderLine → List (FunDecl × List String)
  | [] => []
  | l :: rest =>
    match l with
    | HeaderLine.decl d => (d, s) :: declsWithVis s rest
    | _ => declsWithVis (visStep s l) rest

/-- Preprocessor state: the set of defined macro names, the nesting depth of
conditionals whose branch is being taken, and the nesting depth of
conditionals being skipped (`skip > 0` means lines are discarded). -/
structure PPState : Type where
  defs : List String
  activeDepth : Nat
  skip : Nat
deriving DecidableEq

/-- One step of the C preprocessor on one header line (restricted to the
directives the file uses): returns the next state and the prototypes the line
contributes to the translation unit.  While skipping, only conditional
nesting is tracked; when active, `#ifndef m` skips its block iff `m` is
defined, `#define m` defines `m`, and a prototype line contributes its
prototype. -/
def ppStep (st : PPState) : HeaderLine → PPState × List FunDecl
  | HeaderLine.directive (PPDirective.ifNotDefined m) =>
      if st.skip > 0 then (⟨st.defs, st.activeDepth, st.skip + 1⟩, [])
      else if m ∈ st.defs then (⟨st.defs, st.activeDepth, 1⟩, [])
      else (⟨st.defs, st.activeDepth + 1, 0⟩, [])
  | HeaderLine.directive (PPDirective.define m) =>
      if st.skip > 0 then (st, [])
      else (⟨m :: st.defs, st.activeDepth, 0⟩, [])
  | HeaderLine.directive PPDirective.endif =>
      if st.skip > 0 then (⟨st.defs, st.activeDepth, st.skip - 1⟩, [])
      else (⟨st.defs, st.activeDepth - 1, 0⟩, [])
  | HeaderLine.decl d => if st.skip > 0 then (st, []) else (st, [d])
  | _ => (st, [])

/-- Run the preprocessor over a list of header lines from state `st`,
returning the final state and the prototypes contributed. -/
def ppRun : PPState → List HeaderLine → PPState × List FunDecl
  | st, [] => (st, [])
  | st, l :: rest =>
    let p := ppStep st l
    let q := ppRun p.1 rest
    (q.1, p.2 ++ q.2)

/-- The prototypes a translation unit obtains from a list of header lines,
given the macro names already defined. -/
def ppEmit (lines : List HeaderLine) (defs : List String) : List FunDecl :=
  (ppRun ⟨defs, 0, 0⟩ lines).2

theorem ppRun_append (st : PPState) (l1 l2 : List HeaderLine) :
    ppRun st (l1 ++ l2) =
      ((ppRun (ppRun st l1).1 l2).1,
        (ppRun st l1).2 ++ (ppRun (ppRun st l1).1 l2).2) := by
  induction l1 generalizing st with
  | nil => simp [ppRun]
  | cons l rest ih => simp [ppRun, ih, List.append_assoc]

theorem ppRun_header_defined (defs : List String) (ad : Nat)
    (h : "RobotControl_" ∈ defs) :
    ppRun ⟨defs, ad, 0⟩ RobotControl_h = (⟨defs, ad, 0⟩, []) := by
  simp +decide [RobotControl_h, ppRun, ppStep, h]

theorem ppRun_header_fresh (defs : List String) (ad : Nat)
    (h : "RobotControl_" ∉ defs) :
    ppRun ⟨defs, ad, 0⟩ RobotControl_h =
      (⟨ "RobotControl_" :: defs, ad, 0⟩,
        [clinetDecl, sendCommandDecl, gotoViewDecl, loadPathDecl,
          executePathDecl, setVelocityDecl]) := by
  simp +decide [RobotControl_h, ppRun, ppStep, h]

theorem ppRun_header_replicate (m : Nat) (defs : List String) (ad : Nat)
    (h : "RobotControl_" ∈ defs) :
    ppRun ⟨defs, ad, 0⟩ (List.flatten (List.replicate m RobotControl_h)) =
      (⟨defs, ad, 0⟩, []) := by
  induction m with
  | zero => simp [ppRun]
  | succ k ih =>
      rw [List.replicate_succ, List.flatten_cons, ppRun_append,
        ppRun_header_defined defs ad h]
      simp [ih]

/-- True when a header line is a type definition (struct/union/enum/typedef). -/
def isTypeDefnLine : HeaderLine → Bool
  | HeaderLine.typeDefn _ _ => true
  | _ => false

/-- All parameter types explicitly listed across the prototypes of a list of
header lines, in order. -/
def allParamTypes (lines : List HeaderLine) : List CType :=
  ((headerDecls lines).map fun d => paramTypes d.args).flatten

/-- Claim C1: the header declares exactly six functions, named `Clinet`,
`SendCommand`, `GotoView`, `LoadPath`, `ExecutePath`, `SetVelocity`, in that
order — in particular the first is spelled "Clinet" and no function named
"Client" is declared — and no other function is declared by the header. -/
theorem header_declares_exactly_six_functions :
    (headerDecls RobotControl_h).map FunDecl.name =
      [ "Clinet", "SendCommand", "GotoView", "LoadPath", "ExecutePath",
        "SetVelocity"] ∧
    "Client" ∉ (headerDecls RobotControl_h).map FunDecl.name ∧
    (headerDecls RobotControl_h).length = 6 := by
  refine ⟨rfl, ?_, rfl⟩
  decide

/-- Claim C2: every one of the six declared functions has return type `int`,
so an integer status code is each call's only result channel; and the only
prose anywhere in the source is the seven-line title comment block, which
says nothing about the success/failure encoding of that integer — the
encoding is nowhere documented in the source. -/
theorem header_functions_return_int_encoding_undocumented :
    (headerDecls RobotControl_h).map FunDecl.ret =
      [ CType.int, CType.int, CType.int, CType.int, CType.int, CType.int] ∧
    headerComments RobotControl_h =
      [ "", " RobotControl.h", " RobotControl", " Guanghan Pan", "",
        " Header file to export functions", ""] :=
  ⟨rfl, rfl⟩

/-- Claim C3: `SendCommand`, `GotoView`, and `LoadPath` are each declared in
the header with exactly one parameter, of type `char *`, and no other
parameters. -/
theorem char_pointer_functions_take_one_string :
    sendCommandDecl ∈ headerDecls RobotControl_h ∧
    gotoViewDecl ∈ headerDecls RobotControl_h ∧
    loadPathDecl ∈ headerDecls RobotControl_h ∧
    sendCommandDecl.args = ParamList.params [CType.ptr CType.char] ∧
    gotoViewDecl.args = ParamList.params [CType.ptr CType.char] ∧
    loadPathDecl.args = ParamList.params [CType.ptr CType.char] := by
  refine ⟨?_, ?_, ?_, rfl, rfl, rfl⟩ <;> decide

/-- Claim C4: `SetVelocity` is declared in the header with exactly one
parameter, of type `float`, and return type `int`. -/
theorem setVelocity_takes_float_returns_int :
    setVelocityDecl ∈ headerDecls RobotControl_h ∧
    setVelocityDecl.args = ParamList.params [CType.float] ∧
    setVelocityDecl.ret = CType.int := by
  refine ⟨?_, rfl, rfl⟩
  decide

/-- Claim C5: `Clinet` and `ExecutePath` are each declared in the header as
`int f()` with the empty parameter list `()`; the embedding keeps C's
distinction between `()` (parameters unspecified) and `(void)` (zero
parameters), and both declarations use the unspecified `()` form, which is
distinct from the zero-parameter form. -/
theorem clinet_executePath_empty_parameter_list :
    clinetDecl ∈ headerDecls RobotControl_h ∧
    executePathDecl ∈ headerDecls RobotControl_h ∧
    clinetDecl.ret = CType.int ∧
    executePathDecl.ret = CType.int ∧
    clinetDecl.args = ParamList.unspecified ∧
    executePathDecl.args = ParamList.unspecified ∧
    ParamList.unspecified ≠ ParamList.params [] := by
  refine ⟨?_, ?_, rfl, rfl, rfl, rfl, ?_⟩ <;> decide

/-- Claim C6: the parameter types appearing across all six declarations are
exactly three `char *` and one `float` — all built from primitive C types —
every return type is primitive, and no type definition (struct, union, enum,
typedef) appears anywhere in the source, so no declared function takes or
returns a compound data structure. -/
theorem header_types_all_primitive :
    allParamTypes RobotControl_h =
      [ CType.ptr CType.char, CType.ptr CType.char, CType.ptr CType.char,
        CType.float] ∧
    (allParamTypes RobotControl_h).all isPrimitiveType = true ∧
    ((headerDecls RobotControl_h).map FunDecl.ret).all isPrimitiveType = true ∧
    RobotControl_h.countP isTypeDefnLine = 0 :=
  ⟨rfl, rfl, rfl, rfl⟩

/-- Claim C7: every one of the six declarations lies inside the
`#pragma GCC visibility push(default)` / `#pragma GCC visibility pop` region:
pairing each declared prototype with the visibility stack in force at its
line (starting from the empty ambient stack), all six prototypes appear and
each sees the stack `["default"]`. -/
theorem all_decls_under_default_visibility :
    declsWithVis [] RobotControl_h =
      [ (clinetDecl, ["default"]), (sendCommandDecl, ["default"]),
        (gotoViewDecl, ["default"]), (loadPathDecl, ["default"]),
        (executePathDecl, ["default"]), (setVelocityDecl, ["default"])] :=
  rfl

/-- Claim C8: every line of the source is a comment, a blank line, a
preprocessor directive, or a function prototype — no function definition
with a body, no variable declaration, no type definition, and no executable
statement occurs — so each declared operation is semantically opaque in the
supplied material. -/
theorem header_contains_only_prototypes_and_pragmas :
    RobotControl_h.all isDeclarativeLine = true :=
  rfl

/-- Claim C9: inclusion of the header is idempotent.  Under the preprocessor
semantics of the include guard (`#ifndef RobotControl_` / `#define
RobotControl_` / `#endif`), textually including the header any number of
times `n + 1 ≥ 1` into a translation unit with any prior set of defined
macros yields exactly the same declarations as including it once; in
particular two or more inclusions add nothing beyond the first. -/
theorem header_inclusion_idempotent (defs : List String) (n : Nat) :
    ppEmit (List.flatten (List.replicate (n + 1) RobotControl_h)) defs =
      ppEmit RobotControl_h defs := by
  by_cases h : "RobotControl_" ∈ defs
  · unfold ppEmit
    rw [ppRun_header_replicate (n + 1) defs 0 h, ppRun_header_defined defs 0 h]
  · unfold ppEmit
    rw [List.replicate_succ, List.flatten_cons, ppRun_append,
      ppRun_header_fresh defs 0 h]
    rw [ppRun_header_replicate n ("RobotControl_" :: defs) 0 (by simp)]
    simp [ppRun_header_fresh defs 0 h]

/-- Witness for C9: including the header twice into a fresh translation unit
yields the same declarations as including it once. -/
theorem header_inclusion_idempotent_witness :
    ppEmit (List.flatten (List.replicate 2 RobotControl_h)) [] =
      ppEmit RobotControl_h [] :=
  header_inclusion_idempotent [] 1

/-- Claim C10: the header leaves the ambient symbol-visibility setting
unchanged for code that follows it: for every incoming visibility stack, the
stack after processing the whole header equals the incoming stack, and the
file contains exactly one `#pragma GCC visibility push` and exactly one
`#pragma GCC visibility pop`. -/
theorem header_preserves_visibility_stack :
    (∀ s : List String, visAfter RobotControl_h s = s) ∧
    RobotControl_h.countP isVisPush = 1 ∧
    RobotControl_h.countP isVisPop = 1 :=
  ⟨fun _ => rfl, rfl, rfl⟩

/-- Witness for C10: a concrete ambient stack is restored by the header. -/
theorem header_preserves_visibility_stack_witness :
    visAfter RobotControl_h ["hidden"] = ["hidden"] :=
  header_preserves_visibility_stack.1 ["hidden"]
